import Mathlib

/-!
Shallow embedding of the OAuth2/PKCE token-lifecycle subsystem of the
`alexa-oauth2` Home Assistant integration
(`custom_components/alexa/oauth_manager.py`, `token_manager.py`,
`session_manager.py`, `advanced_reauth.py`), together with theorems that
settle the frozen claims about it.

Machine integers are modelled as `Nat`/`Int` with explicit `% 2 ^ w`
where overflow matters; fallible Python code returns `Except`; stateful
code is explicit state passing; the concurrency of the session manager's
single-flight refresh is a small-step machine over interleaving
schedules.
-/

namespace AlexaOAuth

/-! ## Base64url encoding (Python `base64.urlsafe_b64encode`, padding stripped)

`oauth_manager.generate_pkce_pair` encodes 32 random bytes with
`base64.urlsafe_b64encode(...).decode("utf-8").rstrip("=")`. -/

/-- The base64url alphabet of RFC 4648 section 5, as used by Python's
`base64.urlsafe_b64encode` (standard alphabet with `+`,`/` replaced by
`-`,`_`). -/
def B64URL_ALPHABET : List Char :=
  [ 'A', 'B', 'C', 'D', 'E', 'F', 'G', 'H', 'I', 'J', 'K', 'L', 'M',
    'N', 'O', 'P', 'Q', 'R', 'S', 'T', 'U', 'V', 'W', 'X', 'Y', 'Z',
    'a', 'b', 'c', 'd', 'e', 'f', 'g', 'h', 'i', 'j', 'k', 'l', 'm',
    'n', 'o', 'p', 'q', 'r', 's', 't', 'u', 'v', 'w', 'x', 'y', 'z',
    '0', '1', '2', '3', '4', '5', '6', '7', '8', '9', '-', '_' ]

/-- The character the base64url alphabet assigns to a 6-bit index. -/
def b64Char (i : Nat) : Char := B64URL_ALPHABET.getD i '?'

/-- Base64url-encode a byte list three bytes at a time, already with the
`=` padding stripped (`.rstrip("=")` in the source): a trailing 2-byte
group yields 3 characters, a trailing 1-byte group yields 2. -/
def b64Chunks : List Nat → List Char
  | b1 :: b2 :: b3 :: rest =>
      b64Char (b1 / 4) ::
      b64Char ((b1 % 4) * 16 + b2 / 16) ::
      b64Char ((b2 % 16) * 4 + b3 / 64) ::
      b64Char (b3 % 64) ::
      b64Chunks rest
  | [b1, b2] =>
      [b64Char (b1 / 4), b64Char ((b1 % 4) * 16 + b2 / 16),
       b64Char ((b2 % 16) * 4)]
  | [b1] =>
      [b64Char (b1 / 4), b64Char ((b1 % 4) * 16)]
  | [] => []

/-- `base64.urlsafe_b64encode(bytes).decode("utf-8").rstrip("=")`. -/
def b64urlNoPad (bs : List Nat) : String := String.mk (b64Chunks bs)

/-! ## UTF-8 encoding (Python `str.encode("utf-8")`) -/

/-- UTF-8 encode one code point (the source calls `.encode("utf-8")` on the
verifier before hashing; verifier characters are all ASCII, but the
encoder is the general one). -/
def utf8EncodeChar (c : Char) : List Nat :=
  let n := c.toNat
  if n < 128 then [n]
  else if n < 2048 then [192 + n / 64, 128 + n % 64]
  else if n < 65536 then
    [224 + n / 4096, 128 + (n / 64) % 64, 128 + n % 64]
  else
    [240 + n / 262144, 128 + (n / 4096) % 64, 128 + (n / 64) % 64,
     128 + n % 64]

/-- The UTF-8 bytes of a string. -/
def utf8Bytes (s : String) : List Nat := (s.data.map utf8EncodeChar).flatten

/-! ## SHA-256 (as used through Python `hashlib.sha256`)

Words are `Nat` reduced modulo `2 ^ 32`. -/

/-- 32-bit word modulus. -/
def W32 : Nat := 4294967296

/-- Addition modulo `2 ^ 32`. -/
def wadd (a b : Nat) : Nat := (a + b) % W32

/-- Rotate a 32-bit word right by `n`. -/
def rotr32 (n x : Nat) : Nat := ((x >>> n) ||| (x <<< (32 - n))) % W32

/-- SHA-256 round constants (FIPS 180-4 section 4.2.2, in decimal). -/
def SHA256_K : List Nat :=
  [ 1116352408, 1899447441, 3049323471,
    3921009573, 961987163, 1508970993,
    2453635748, 2870763221, 3624381080,
    310598401, 607225278, 1426881987,
    1925078388, 2162078206, 2614888103,
    3248222580, 3835390401, 4022224774,
    264347078, 604807628, 770255983,
    1249150122, 1555081692, 1996064986,
    2554220882, 2821834349, 2952996808,
    3210313671, 3336571891, 3584528711,
    113926993, 338241895, 666307205,
    773529912, 1294757372, 1396182291,
    1695183700, 1986661051, 2177026350,
    2456956037, 2730485921, 2820302411,
    3259730800, 3345764771, 3516065817,
    3600352804, 4094571909, 275423344,
    430227734, 506948616, 659060556,
    883997877, 958139571, 1322822218,
    1537002063, 1747873779, 1955562222,
    2024104815, 2227730452, 2361852424,
    2428436474, 2756734187, 3204031479,
    3329325298 ]

/-- SHA-256 initial hash value (FIPS 180-4 section 5.3.3, in decimal). -/
def SHA256_H0 : List Nat :=
  [ 1779033703, 3144134277, 1013904242,
    2773480762, 1359893119, 2600822924,
    528734635, 1541459225 ]

/-- `Ch(x, y, z)` of FIPS 180-4. -/
def sha256Ch (x y z : Nat) : Nat := (x &&& y) ^^^ ((x ^^^ 0xffffffff) &&& z)

/-- `Maj(x, y, z)` of FIPS 180-4. -/
def sha256Maj (x y z : Nat) : Nat := (x &&& y) ^^^ (x &&& z) ^^^ (y &&& z)

/-- `Σ0` of FIPS 180-4. -/
def sha256S0 (x : Nat) : Nat := rotr32 2 x ^^^ rotr32 13 x ^^^ rotr32 22 x

/-- `Σ1` of FIPS 180-4. -/
def sha256S1 (x : Nat) : Nat := rotr32 6 x ^^^ rotr32 11 x ^^^ rotr32 25 x

/-- `σ0` of FIPS 180-4. -/
def sha256s0 (x : Nat) : Nat := rotr32 7 x ^^^ rotr32 18 x ^^^ (x >>> 3)

/-- `σ1` of FIPS 180-4. -/
def sha256s1 (x : Nat) : Nat := rotr32 17 x ^^^ rotr32 19 x ^^^ (x >>> 10)

/-- Group a byte list into big-endian 32-bit words. -/
def bytesToWords : List Nat → List Nat
  | a :: b :: c :: d :: rest =>
      (((a * 256 + b) * 256 + c) * 256 + d) :: bytesToWords rest
  | _ => []

/-- Serialize 32-bit words as big-endian bytes. -/
def wordsToBytes : List Nat → List Nat
  | [] => []
  | w :: rest =>
      (w / 16777216) % 256 :: (w / 65536) % 256 :: (w / 256) % 256 ::
      w % 256 :: wordsToBytes rest

/-- Extend 16 message words to the 64-entry schedule `W`. -/
def sha256Schedule (block : List Nat) : Nat → List Nat
  | 0 => block
  | n + 1 =>
      let w := sha256Schedule block n
      let t := wadd (wadd (sha256s1 (w.getD (w.length - 2) 0))
                          (w.getD (w.length - 7) 0))
                    (wadd (sha256s0 (w.getD (w.length - 15) 0))
                          (w.getD (w.length - 16) 0))
      w ++ [t]

/-- One round of the SHA-256 compression function on the state
`(a, b, c, d, e, f, g, h)`. -/
def sha256Round (st : List Nat) (kw : Nat × Nat) : List Nat :=
  match st with
  | [a, b, c, d, e, f, g, h] =>
      let t1 := wadd (wadd (wadd h (sha256S1 e))
                           (wadd (sha256Ch e f g) kw.1)) kw.2
      let t2 := wadd (sha256S0 a) (sha256Maj a b c)
      [wadd t1 t2, a, b, c, wadd d t1, e, f, g]
  | other => other

/-- Compress one 64-byte block into the running hash. -/
def sha256Block (h : List Nat) (block : List Nat) : List Nat :=
  let w := sha256Schedule (bytesToWords block) 48
  let st := (SHA256_K.zip w).foldl sha256Round h
  (h.zip st).map fun p => wadd p.1 p.2

/-- Split the padded message into 64-byte blocks. -/
def chunk64 (l : List Nat) : List (List Nat) :=
  if _h : l.length = 0 then []
  else l.take 64 :: chunk64 (l.drop 64)
  termination_by l.length
  decreasing_by
    simp only [List.length_drop]
    omega

/-- The 8-byte big-endian bit-length suffix of the SHA-256 padding. -/
def lengthBytes64 (bits : Nat) : List Nat :=
  [ (bits / 72057594037927936) % 256, (bits / 281474976710656) % 256,
    (bits / 1099511627776) % 256, (bits / 4294967296) % 256,
    (bits / 16777216) % 256, (bits / 65536) % 256,
    (bits / 256) % 256, bits % 256 ]

/-- SHA-256 padding: append `0x80`, zeros to 56 mod 64, and the bit length. -/
def sha256Pad (msg : List Nat) : List Nat :=
  let z := (119 - msg.length % 64) % 64
  msg ++ 128 :: List.replicate z 0 ++ lengthBytes64 (msg.length * 8)

/-- SHA-256 digest of a byte list, as a list of 32 bytes
(Python `hashlib.sha256(data).digest()`). -/
def sha256 (msg : List Nat) : List Nat :=
  wordsToBytes ((chunk64 (sha256Pad msg)).foldl sha256Block SHA256_H0)

/-! ## `OAuthManager.generate_pkce_pair` and `validate_state`
(`oauth_manager.py` lines 171-275) -/

/-- `OAuthManager.generate_pkce_pair`, with the 32 random bytes produced
by `secrets.token_bytes(32)` taken as input.  Returns
`(code_verifier, code_challenge)`. -/
def generate_pkce_pair (verifier_bytes : List Nat) : String × String :=
  let code_verifier := b64urlNoPad verifier_bytes
  let challenge_bytes := sha256 (utf8Bytes code_verifier)
  let code_challenge := b64urlNoPad challenge_bytes
  (code_verifier, code_challenge)

/-- Python `hmac.compare_digest` on (ASCII) strings: length check plus an
accumulated OR of byte XORs, exactly the constant-time accumulation the
CPython implementation performs. -/
def compare_digest (a b : String) : Bool :=
  let la := a.data.map Char.toNat
  let lb := b.data.map Char.toNat
  if la.length ≠ lb.length then false
  else ((la.zip lb).foldl (fun acc p => acc ||| (p.1 ^^^ p.2)) 0) == 0

/-- `OAuthManager.validate_state` (`oauth_manager.py` lines 261-275). -/
def validate_state (received_state expected_state : String) : Bool :=
  compare_digest received_state expected_state

/-! ## `TokenResponse.from_dict` and token-endpoint error handling
(`oauth_manager.py` lines 74-115, 454-457, 577-580, 658-699) -/

/-- A JSON value as far as `from_dict`'s `isinstance(expires_in, int)`
check observes it: either a Python `int` or something else. -/
inductive PyValue
  | intVal (n : Int)
  | nonInt
deriving DecidableEq

/-- The token-endpoint JSON body, with exactly the keys the source reads
(`data[...]`, `data.get(...)`); an absent key is `none`. -/
structure TokenDict where
  access_token : Option String := none
  refresh_token : Option String := none
  token_type : Option String := none
  expires_in : Option PyValue := none
  scope : Option String := none
  error : Option String := none
  error_description : Option String := none
deriving DecidableEq

/-- `TokenResponse` dataclass (`oauth_manager.py` lines 56-72). -/
structure TokenResponse where
  access_token : String
  refresh_token : String
  token_type : String
  expires_in : Int
  scope : String := ""
deriving DecidableEq

/-- `TokenResponse.from_dict`: `.error` is a raised `ValueError`. -/
def TokenResponse.from_dict (data : TokenDict) : Except String TokenResponse :=
  match data.access_token, data.refresh_token, data.token_type,
        data.expires_in with
  | some a, some r, some t, some e =>
    if t ≠ "Bearer" then
      .error ("Invalid token_type: " ++ t ++ ", expected Bearer")
    else
      match e with
      | .intVal n =>
          if n ≤ 0 then .error "Invalid expires_in, must be positive integer"
          else .ok { access_token := a, refresh_token := r, token_type := t,
                     expires_in := n, scope := data.scope.getD "" }
      | .nonInt => .error "Invalid expires_in, must be positive integer"
  | _, _, _, _ => .error "Missing required fields in token response"

/-- The exception raised by `OAuthManager._handle_token_error`. -/
inductive TokenEndpointError
  | alexaInvalidCodeError (msg : String)
  | alexaInvalidGrantError (msg : String)
  | alexaOAuthError (msg : String)
deriving DecidableEq

/-- Whether `needle` starts `hay` (helper for Python's `in` on strings). -/
def startsWithChars : List Char → List Char → Bool
  | [], _ => true
  | _ :: _, [] => false
  | a :: as, b :: bs => a == b && startsWithChars as bs

/-- Whether `needle` occurs inside `hay` (Python `needle in hay`). -/
def containsChars (hay needle : List Char) : Bool :=
  match hay with
  | [] => needle.isEmpty
  | _ :: t => startsWithChars needle hay || containsChars t needle

/-- Python `needle in hay` on strings. -/
def strContainsSub (hay needle : String) : Bool :=
  containsChars hay.data needle.data

/-- `OAuthManager._handle_token_error` (`oauth_manager.py` lines
658-699): the body of the non-200 handler; every branch raises, so the
embedding returns the raised exception. -/
def handle_token_error (data : TokenDict) : TokenEndpointError :=
  let error_code := data.error.getD "unknown_error"
  let error_description := data.error_description.getD "No description provided"
  if error_code = "invalid_grant" then
    if strContainsSub error_description.toLower "authorization code" then
      .alexaInvalidCodeError ("Invalid authorization code: " ++ error_description)
    else
      .alexaInvalidGrantError ("Invalid grant: " ++ error_description)
  else if error_code = "invalid_client" then
    .alexaOAuthError ("Invalid client credentials: " ++ error_description)
  else
    .alexaOAuthError ("OAuth error (" ++ error_code ++ "): " ++ error_description)

/-- Response handling shared verbatim by `exchange_code` (lines 454-469)
and `refresh_access_token` (lines 577-592): on a non-200 status the
error handler is invoked (and always raises); on 200 the body is parsed,
a `ValueError` being re-raised as `AlexaOAuthError`. -/
def token_endpoint_response (status : Nat) (body : TokenDict) :
    Except TokenEndpointError TokenResponse :=
  if status ≠ 200 then .error (handle_token_error body)
  else
    match TokenResponse.from_dict body with
    | .ok tr => .ok tr
    | .error msg => .error (.alexaOAuthError ("Invalid token response: " ++ msg))

/-- `OAuthManager.exchange_code`'s handling of the token-endpoint
response. -/
def exchange_code_response (status : Nat) (body : TokenDict) :
    Except TokenEndpointError TokenResponse :=
  token_endpoint_response status body

/-- `OAuthManager.refresh_access_token`'s handling of the token-endpoint
response. -/
def refresh_access_token_response (status : Nat) (body : TokenDict) :
    Except TokenEndpointError TokenResponse :=
  token_endpoint_response status body

/-! ## `TokenManager` (`token_manager.py`) -/

/-- The stored token dictionary (`token_manager.py` storage format). -/
structure TokenData where
  access_token : Option String := none
  refresh_token : Option String := none
  token_type : Option String := none
  expires_at : Int := 0
  scope : Option String := none
deriving DecidableEq

/-- Modelled from the spec: Home Assistant's `Store` class — the "host's
encrypted storage primitive" per the spec — is host code, not under this
repository's sources; it is modelled as an encryption wrapper applied on
save and stripped on load. -/
structure HostEncrypted where
  ciphertext : TokenData
deriving DecidableEq

/-- Modelled from the spec: encryption performed by the host's `Store`
on save. -/
def hostEncrypt (td : TokenData) : HostEncrypted := ⟨td⟩

/-- Modelled from the spec: decryption performed by the host's `Store`
on load. -/
def hostDecrypt (e : HostEncrypted) : TokenData := e.ciphertext

/-- `TokenManager` state: the in-memory cache `self._token_data` and the
persisted `Store` contents. -/
structure TMState where
  cache : Option TokenData := none
  store : Option HostEncrypted := none
deriving DecidableEq

/-- The recurring pattern `if self._token_data is None:
self._token_data = await self._store.async_load()`. -/
def loadTokenData (s : TMState) : TMState :=
  match s.cache with
  | some _ => s
  | none => { s with cache := s.store.map hostDecrypt }

/-- Modelled from the spec: `const.py` is not under the sources; the
`token_manager.py` and `session_manager.py` docstrings fix the proactive
refresh buffer at 300 seconds (5 minutes). -/
def TOKEN_REFRESH_BUFFER_SECONDS : Int := 300

/-- `TokenManager.is_token_valid` (`token_manager.py` lines 184-231),
with `time.time()` passed as `now`. -/
def is_token_valid (s : TMState) (now : Int) : Bool × TMState :=
  let s := loadTokenData s
  match s.cache with
  | none => (false, s)
  | some td =>
    if td.expires_at = 0 then (false, s)
    else (decide (td.expires_at - now > TOKEN_REFRESH_BUFFER_SECONDS), s)

/-- The token dictionary `async_save_token` builds from a
`TokenResponse` (`token_manager.py` lines 260-270). -/
def tokenDataOfResponse (tr : TokenResponse) (now : Int) : TokenData :=
  { access_token := some tr.access_token
    refresh_token := some tr.refresh_token
    token_type := some tr.token_type
    expires_at := now + tr.expires_in
    scope := some tr.scope }

/-- `TokenManager.async_save_token` (`token_manager.py` lines 237-278). -/
def async_save_token (s : TMState) (now : Int) (tr : TokenResponse) : TMState :=
  let td := tokenDataOfResponse tr now
  { s with cache := some td, store := some (hostEncrypt td) }

/-- The exceptions `TokenManager.async_refresh_token` can raise. -/
inductive RefreshErr
  | alexaRefreshFailedError (msg : String)
  | alexaInvalidGrantError (msg : String)
deriving DecidableEq

/-- `TokenManager.async_refresh_token` (`token_manager.py` lines
284-358); the Amazon round trip is abstracted as its outcome `network`. -/
def async_refresh_token (s : TMState) (now : Int)
    (network : Except RefreshErr TokenResponse) :
    Except RefreshErr TokenResponse × TMState :=
  let s := loadTokenData s
  match s.cache with
  | none => (.error (.alexaRefreshFailedError "No token data available"), s)
  | some td =>
    match td.refresh_token with
    | none => (.error (.alexaRefreshFailedError "No refresh token available"), s)
    | some rt =>
      if rt = "" then
        (.error (.alexaRefreshFailedError "No refresh token available"), s)
      else
        match network with
        | .error e => (.error e, s)
        | .ok tr => (.ok tr, async_save_token s now tr)

deriving instance DecidableEq for Except

/-- Result of `TokenManager.async_get_access_token`: whether a refresh
was attempted, the returned token or raised error, and the final state. -/
structure GetTokenOutcome where
  attempted_refresh : Bool
  result : Except String String
  state : TMState
deriving DecidableEq

/-- The tail of `async_get_access_token` after the refresh decision
(`token_manager.py` lines 166-178). -/
def finishGetToken (attempted : Bool) (s : TMState) : GetTokenOutcome :=
  let s := loadTokenData s
  match s.cache with
  | none => ⟨attempted, .error "No access token available", s⟩
  | some td =>
    match td.access_token with
    | none => ⟨attempted, .error "No access token available", s⟩
    | some tok => ⟨attempted, .ok tok, s⟩

/-- `TokenManager.async_get_access_token` (`token_manager.py` lines
124-178). -/
def async_get_access_token (s : TMState) (now : Int)
    (network : Except RefreshErr TokenResponse) : GetTokenOutcome :=
  let vs := is_token_valid s now
  if vs.1 then finishGetToken false vs.2
  else
    match async_refresh_token vs.2 now network with
    | (.error _, s) =>
        ⟨true, .error "Token expired and refresh failed", s⟩
    | (.ok _, s) => finishGetToken true s

/-- Result of `TokenManager.async_revoke_token`: whether the revocation
endpoint was contacted, whether Amazon confirmed (status 200), and the
final state. -/
structure RevokeOutcome where
  network_contacted : Bool
  revocation_succeeded : Bool
  state : TMState
deriving DecidableEq

/-- `TokenManager.async_revoke_token` (`token_manager.py` lines
364-423); the best-effort POST is abstracted as its outcome `network`
(`.error` a raised exception, `.ok s` a response with status `s`). -/
def async_revoke_token (s : TMState) (network : Except String Nat) :
    RevokeOutcome :=
  let s := loadTokenData s
  match s.cache with
  | none => ⟨false, false, s⟩
  | some td =>
    match td.refresh_token with
    | none => ⟨false, false, s⟩
    | some rt =>
      if rt = "" then ⟨false, false, s⟩
      else
        let ok := match network with
          | .ok 200 => true
          | _ => false
        ⟨true, ok, { cache := none, store := none }⟩

/-! ## `SessionManager` (`session_manager.py`) -/

/-- `session_manager.py` line 38. -/
def BACKGROUND_TASK_INTERVAL_SECONDS : Nat := 60

/-- `session_manager.py` line 39. -/
def REFRESH_RETRY_INITIAL_BACKOFF_SECONDS : Nat := 1

/-- `session_manager.py` line 40. -/
def REFRESH_RETRY_MAX_ATTEMPTS : Nat := 5

/-- `session_manager.py` line 41. -/
def REFRESH_RETRY_MAX_BACKOFF_SECONDS : Nat := 16

/-- `SessionManager._should_refresh_token` (`session_manager.py` lines
244-280): `in_refreshing` is `entry_id in self._refreshing_entries`,
`token_valid` the result of `is_token_valid`, `check_raised` whether the
validity check raised. -/
def should_refresh_token (in_refreshing token_valid check_raised : Bool) :
    Bool :=
  if in_refreshing then false
  else if check_raised then false
  else !token_valid

/-- Trace of the retry loop of `_refresh_token_for_entry`
(`session_manager.py` lines 321-369): number of refresh attempts made,
the `asyncio.sleep` delays in order, whether `_notify_token_expiry` was
called, and whether a refresh succeeded. -/
structure RetryTrace where
  attempts : Nat
  delays : List Nat
  notified : Bool
  succeeded : Bool
deriving DecidableEq

/-- The retry loop `for attempt in range(1, REFRESH_RETRY_MAX_ATTEMPTS + 1)`
of `_refresh_token_for_entry`; `succ attempt` tells whether the refresh
attempt numbered `attempt` succeeds — a failing attempt raises one of
the refresh failures the loop's `except` clause catches; exception types
outside that clause propagate out of the loop and are outside this
model; `remaining` counts loop iterations left and equals
`REFRESH_RETRY_MAX_ATTEMPTS + 1 - attempt` at entry. -/
def retryLoop (succ : Nat → Bool) :
    (remaining attempt backoff : Nat) → RetryTrace
  | 0, _, _ => ⟨0, [], false, false⟩
  | r + 1, attempt, backoff =>
    if succ attempt then ⟨1, [], false, true⟩
    else if attempt < REFRESH_RETRY_MAX_ATTEMPTS then
      let t := retryLoop succ r (attempt + 1)
        (min (backoff * 2) REFRESH_RETRY_MAX_BACKOFF_SECONDS)
      ⟨t.attempts + 1, backoff :: t.delays, t.notified, t.succeeded⟩
    else ⟨1, [], true, false⟩

/-- The full retry phase of `SessionManager._refresh_token_for_entry`:
starts at attempt 1 with `backoff_seconds =
REFRESH_RETRY_INITIAL_BACKOFF_SECONDS`. -/
def refresh_retry_trace (succ : Nat → Bool) : RetryTrace :=
  retryLoop succ REFRESH_RETRY_MAX_ATTEMPTS 1
    REFRESH_RETRY_INITIAL_BACKOFF_SECONDS

/-! ### Single-flight interleaving machine

`_refresh_token_for_entry` run by two concurrent callers for the same
`entry_id`, as a small-step machine over interleaving schedules.  Each
atomic step is a region of the coroutine between `await` points:
the single-flight check plus `self._refreshing_entries.add` (lines
304-309, no `await` between them), lock acquisition (line 315), the
refresh work inside the lock, and the `finally` cleanup (line 373). -/

/-- Program counter of one `_refresh_token_for_entry` caller. -/
inductive TaskPC
  | checking   -- about to run the single-flight check
  | waitLock   -- inside the single-flight section, acquiring the lock
  | refreshing -- holds the lock, performing the token refresh
  | cleanup    -- refresh done, about to run the `finally` cleanup
  | finished
deriving DecidableEq

/-- One caller: program counter, whether it returned at the
single-flight check, and how many token refresh operations it ran. -/
structure TaskState where
  pc : TaskPC
  early_return : Bool
  refreshes : Nat
deriving DecidableEq

/-- Shared state and both callers: `refreshing_entry` is
`entry_id ∈ self._refreshing_entries` for the one entry considered,
`lock_held` the per-entry `asyncio.Lock`. -/
structure SFState where
  refreshing_entry : Bool
  lock_held : Bool
  t1 : TaskState
  t2 : TaskState
deriving DecidableEq

/-- Advance one caller by one atomic step. -/
def sfStepTask (g : SFState) (t : TaskState) : (Bool × Bool) × TaskState :=
  match t.pc with
  | .checking =>
    if g.refreshing_entry then
      ((g.refreshing_entry, g.lock_held),
       { t with pc := .finished, early_return := true })
    else ((true, g.lock_held), { t with pc := .waitLock })
  | .waitLock =>
    if g.lock_held then ((g.refreshing_entry, g.lock_held), t)
    else ((g.refreshing_entry, true), { t with pc := .refreshing })
  | .refreshing =>
    ((g.refreshing_entry, g.lock_held),
     { t with pc := .cleanup, refreshes := t.refreshes + 1 })
  | .cleanup => ((false, false), { t with pc := .finished })
  | .finished => ((g.refreshing_entry, g.lock_held), t)

/-- Advance the scheduled caller (`false` = first, `true` = second). -/
def sfStep (s : SFState) (i : Bool) : SFState :=
  if i then
    let r := sfStepTask s s.t2
    { s with refreshing_entry := r.1.1, lock_held := r.1.2, t2 := r.2 }
  else
    let r := sfStepTask s s.t1
    { s with refreshing_entry := r.1.1, lock_held := r.1.2, t1 := r.2 }

/-- Run a schedule of interleaved steps. -/
def sfRun (s : SFState) (sched : List Bool) : SFState :=
  sched.foldl sfStep s

/-- Both callers at the single-flight check, nothing in flight. -/
def sfInit : SFState :=
  ⟨false, false, ⟨.checking, false, 0⟩, ⟨.checking, false, 0⟩⟩

/-- A caller is inside the single-flight section (its refresh is in
flight). -/
def inFlight (t : TaskState) : Bool :=
  t.pc == .waitLock || t.pc == .refreshing || t.pc == .cleanup

/-- Inductive invariant of the single-flight machine: the two callers
are never both inside the single-flight section, the
`_refreshing_entries` membership mirrors exactly whether some caller is
inside, a caller that returned early is finished without having run any
refresh, and a caller still at the check has run none either. -/
def SFInv (s : SFState) : Prop :=
  (inFlight s.t1 && inFlight s.t2) = false ∧
  s.refreshing_entry = (inFlight s.t1 || inFlight s.t2) ∧
  (s.t1.early_return = true → s.t1.pc = .finished ∧ s.t1.refreshes = 0) ∧
  (s.t2.early_return = true → s.t2.pc = .finished ∧ s.t2.refreshes = 0) ∧
  (s.t1.pc = .checking → s.t1.refreshes = 0) ∧
  (s.t2.pc = .checking → s.t2.refreshes = 0)

/-! ## `AdvancedReauthHandler` (`advanced_reauth.py`) -/

/-- `ReauthReason` (`advanced_reauth.py` lines 93-103). -/
inductive ReauthReason
  | refresh_token_expired
  | app_revoked
  | client_secret_rotated
  | regional_change
  | scope_changed
deriving DecidableEq

/-- Modelled from the spec: `const.py` is not under the sources, so the
numeric retry cap is not fixed by them; only the threshold comparison in
`async_handle_reauth` matters to the claims. -/
def REAUTH_MAX_RETRY_ATTEMPTS : Nat := 3

/-- Where one invocation of `async_handle_reauth` transfers control
(`advanced_reauth.py` lines 509-607). -/
inductive ReauthOutcome
  | raisedMaxRetriesError
  | waitedForExisting
  | toExpiredRefreshToken
  | toRevokedApp
  | toClientSecretRotation
  | toRegionalChange
  | toScopeChangedReauthFlow
deriving DecidableEq

/-- The dispatch table of `async_handle_reauth`'s `if`/`elif` chain on
`reason`. -/
def reauthDispatch (reason : ReauthReason) : ReauthOutcome :=
  match reason with
  | .refresh_token_expired => .toExpiredRefreshToken
  | .app_revoked => .toRevokedApp
  | .client_secret_rotated => .toClientSecretRotation
  | .regional_change => .toRegionalChange
  | .scope_changed => .toScopeChangedReauthFlow

/-- One invocation of `AdvancedReauthHandler.async_handle_reauth`
(lines 536-586): the max-retries guard, the busy-lock wait, then the
dispatch on `reason`. -/
def async_handle_reauth (reason : ReauthReason)
    (retry_count : Nat) (lock_locked : Bool) : ReauthOutcome :=
  if retry_count ≥ REAUTH_MAX_RETRY_ATTEMPTS then .raisedMaxRetriesError
  else if lock_locked then .waitedForExisting
  else reauthDispatch reason

/-! ## Supporting lemmas -/

theorem b64Chunks_length (l : List Nat) :
    (b64Chunks l).length = (l.length * 4 + 2) / 3 := by
  match l with
  | [] => simp [b64Chunks]
  | [b1] => simp [b64Chunks]
  | [b1, b2] => simp [b64Chunks]
  | b1 :: b2 :: b3 :: rest =>
    have ih := b64Chunks_length rest
    simp only [b64Chunks, List.length_cons, ih]
    omega

theorem b64Char_mem_alphabet {i : Nat} (h : i < 64) :
    b64Char i ∈ B64URL_ALPHABET := by
  have hlen : B64URL_ALPHABET.length = 64 := by decide
  have hi : i < B64URL_ALPHABET.length := by omega
  have : b64Char i = B64URL_ALPHABET.get ⟨i, hi⟩ := by
    simp [b64Char, List.getD_eq_getElem?_getD, List.getElem?_eq_getElem hi]
  rw [this]
  exact List.get_mem _ _ _

theorem b64Chunks_mem {l : List Nat} (hb : ∀ b ∈ l, b < 256) :
    ∀ c ∈ b64Chunks l, c ∈ B64URL_ALPHABET := by
  match l with
  | [] => intro c hc; simp [b64Chunks] at hc
  | [b1] =>
    have h1 : b1 < 256 := hb b1 (by simp)
    intro c hc
    simp only [b64Chunks, List.mem_cons, List.mem_singleton] at hc
    rcases hc with rfl | rfl | h
    · exact b64Char_mem_alphabet (by omega)
    · exact b64Char_mem_alphabet (by omega)
    · simp at h
  | [b1, b2] =>
    have h1 : b1 < 256 := hb b1 (by simp)
    have h2 : b2 < 256 := hb b2 (by simp)
    intro c hc
    simp only [b64Chunks, List.mem_cons, List.mem_singleton] at hc
    rcases hc with rfl | rfl | rfl | h
    · exact b64Char_mem_alphabet (by omega)
    · exact b64Char_mem_alphabet (by omega)
    · exact b64Char_mem_alphabet (by omega)
    · simp at h
  | b1 :: b2 :: b3 :: rest =>
    have h1 : b1 < 256 := hb b1 (by simp)
    have h2 : b2 < 256 := hb b2 (by simp)
    have h3 : b3 < 256 := hb b3 (by simp)
    have ih := b64Chunks_mem (l := rest) (fun b hbm => hb b (by simp [hbm]))
    intro c hc
    simp only [b64Chunks, List.mem_cons] at hc
    rcases hc with rfl | rfl | rfl | rfl | h
    · exact b64Char_mem_alphabet (by omega)
    · exact b64Char_mem_alphabet (by omega)
    · exact b64Char_mem_alphabet (by omega)
    · exact b64Char_mem_alphabet (by omega)
    · exact ih c h

theorem pad_not_mem_alphabet : '=' ∉ B64URL_ALPHABET := by decide

theorem or_eq_zero_iff (a b : Nat) : a ||| b = 0 ↔ a = 0 ∧ b = 0 := by
  constructor
  · intro h
    constructor <;> {
      apply Nat.eq_of_testBit_eq
      intro i
      have := congrArg (fun n => Nat.testBit n i) h
      simp [Nat.testBit_lor] at this
      simp [this] }
  · rintro ⟨rfl, rfl⟩; rfl

theorem foldl_or_xor_eq_zero (l : List (Nat × Nat)) (acc : Nat) :
    l.foldl (fun acc p => acc ||| (p.1 ^^^ p.2)) acc = 0 ↔
      acc = 0 ∧ ∀ p ∈ l, p.1 = p.2 := by
  induction l generalizing acc with
  | nil => simp
  | cons p t ih =>
    simp only [List.foldl_cons, ih, List.mem_cons]
    rw [or_eq_zero_iff, Nat.xor_eq_zero]
    constructor
    · rintro ⟨⟨h0, hp⟩, ht⟩
      refine ⟨h0, fun q hq => ?_⟩
      rcases hq with rfl | hq
      · exact hp
      · exact ht q hq
    · rintro ⟨h0, hall⟩
      exact ⟨⟨h0, hall p (Or.inl rfl)⟩, fun q hq => hall q (Or.inr hq)⟩

theorem charToNat_injective : Function.Injective Char.toNat :=
  fun _ _ h => Char.ext (UInt32.ext h)

theorem zip_pointwise_eq {la lb : List Nat} (h : la.length = lb.length) :
    (∀ p ∈ la.zip lb, p.1 = p.2) ↔ la = lb := by
  induction la generalizing lb with
  | nil => cases lb with
    | nil => simp
    | cons b t => simp at h
  | cons a ta ih =>
    cases lb with
    | nil => simp at h
    | cons b tb =>
      simp only [List.length_cons, Nat.succ_inj] at h
      simp only [List.zip_cons_cons, List.mem_cons, List.cons.injEq]
      constructor
      · intro hall
        exact ⟨hall (a, b) (Or.inl rfl), (ih h).mp fun q hq => hall q (Or.inr hq)⟩
      · rintro ⟨rfl, rfl⟩
        intro q hq
        rcases hq with rfl | hq
        · rfl
        · exact ((ih h).mpr rfl) q hq

theorem finishGetToken_attempted (a : Bool) (s : TMState) :
    (finishGetToken a s).attempted_refresh = a := by
  unfold finishGetToken
  rcases h : (loadTokenData s).cache with _ | td
  · simp [h]
  · rcases ha : td.access_token with _ | tok <;> simp [h, ha]

theorem sfInv_init : SFInv sfInit := by
  refine ⟨rfl, rfl, ?_, ?_, fun _ => rfl, fun _ => rfl⟩ <;>
    intro h <;> exact Bool.noConfusion h

theorem sfInv_step (s : SFState) (i : Bool) (h : SFInv s) :
    SFInv (sfStep s i) := by
  obtain ⟨hmx, hre, he1, he2, hc1, hc2⟩ := h
  cases i
  case false =>
    cases hpc : s.t1.pc <;>
      by_cases hrf : s.refreshing_entry = true <;>
      by_cases hlk : s.lock_held = true <;>
      simp_all [sfStep, sfStepTask, SFInv, inFlight]
  case true =>
    cases hpc : s.t2.pc <;>
      by_cases hrf : s.refreshing_entry = true <;>
      by_cases hlk : s.lock_held = true <;>
      simp_all [sfStep, sfStepTask, SFInv, inFlight]

theorem sfInv_run (sched : List Bool) :
    ∀ s, SFInv s → SFInv (sfRun s sched) := by
  induction sched with
  | nil => intro s h; exact h
  | cons i t ih =>
    intro s h
    exact ih _ (sfInv_step s i h)

theorem retryLoop_spec (succ : Nat → Bool) :
    ∀ r a, 1 ≤ a → a ≤ REFRESH_RETRY_MAX_ATTEMPTS →
      a + r = REFRESH_RETRY_MAX_ATTEMPTS + 1 →
      1 ≤ (retryLoop succ r a
            (min (2 ^ (a - 1)) REFRESH_RETRY_MAX_BACKOFF_SECONDS)).attempts ∧
      (retryLoop succ r a
        (min (2 ^ (a - 1)) REFRESH_RETRY_MAX_BACKOFF_SECONDS)).attempts ≤ r ∧
      (retryLoop succ r a
        (min (2 ^ (a - 1)) REFRESH_RETRY_MAX_BACKOFF_SECONDS)).delays =
        (List.range ((retryLoop succ r a
            (min (2 ^ (a - 1)) REFRESH_RETRY_MAX_BACKOFF_SECONDS)).attempts
              - 1)).map
          (fun k => min (2 ^ (a - 1 + k)) REFRESH_RETRY_MAX_BACKOFF_SECONDS) ∧
      (retryLoop succ r a
        (min (2 ^ (a - 1)) REFRESH_RETRY_MAX_BACKOFF_SECONDS)).notified =
        !(retryLoop succ r a
            (min (2 ^ (a - 1)) REFRESH_RETRY_MAX_BACKOFF_SECONDS)).succeeded ∧
      ((retryLoop succ r a
          (min (2 ^ (a - 1)) REFRESH_RETRY_MAX_BACKOFF_SECONDS)).succeeded
            = false →
        (retryLoop succ r a
          (min (2 ^ (a - 1)) REFRESH_RETRY_MAX_BACKOFF_SECONDS)).attempts
            = r) := by
  intro r
  induction r with
  | zero =>
    intro a h1 h2 hsum
    exfalso
    simp [REFRESH_RETRY_MAX_ATTEMPTS] at h2 hsum
    omega
  | succ r ih =>
    intro a h1 h2 hsum
    by_cases hsucc : succ a = true
    · simp [retryLoop, hsucc]
    · by_cases hlast : a < REFRESH_RETRY_MAX_ATTEMPTS
      · have ha4 : a ≤ 4 := by
          simp [REFRESH_RETRY_MAX_ATTEMPTS] at hlast
          omega
        have hble : 2 ^ (a - 1) ≤ 16 := by
          calc 2 ^ (a - 1) ≤ 2 ^ 4 :=
                Nat.pow_le_pow_right (by norm_num) (by omega)
            _ = 16 := by norm_num
        have hback :
            min (min (2 ^ (a - 1)) REFRESH_RETRY_MAX_BACKOFF_SECONDS * 2)
              REFRESH_RETRY_MAX_BACKOFF_SECONDS
            = min (2 ^ (a + 1 - 1)) REFRESH_RETRY_MAX_BACKOFF_SECONDS := by
          simp only [REFRESH_RETRY_MAX_BACKOFF_SECONDS]
          rw [Nat.min_eq_left hble]
          have hpow : 2 ^ (a - 1) * 2 = 2 ^ (a + 1 - 1) := by
            have ha : a - 1 + 1 = a + 1 - 1 := by omega
            rw [← ha, Nat.pow_succ]
          rw [hpow]
        have hstep :
            retryLoop succ (r + 1) a
              (min (2 ^ (a - 1)) REFRESH_RETRY_MAX_BACKOFF_SECONDS) =
            ⟨(retryLoop succ r (a + 1)
                (min (2 ^ (a + 1 - 1)) REFRESH_RETRY_MAX_BACKOFF_SECONDS)).attempts
               + 1,
             min (2 ^ (a - 1)) REFRESH_RETRY_MAX_BACKOFF_SECONDS ::
               (retryLoop succ r (a + 1)
                 (min (2 ^ (a + 1 - 1))
                   REFRESH_RETRY_MAX_BACKOFF_SECONDS)).delays,
             (retryLoop succ r (a + 1)
               (min (2 ^ (a + 1 - 1))
                 REFRESH_RETRY_MAX_BACKOFF_SECONDS)).notified,
             (retryLoop succ r (a + 1)
               (min (2 ^ (a + 1 - 1))
                 REFRESH_RETRY_MAX_BACKOFF_SECONDS)).succeeded⟩ := by
          rw [retryLoop]
          rw [if_neg (by simp [hsucc]), if_pos hlast, hback]
        obtain ⟨ih1, ih2, ih3, ih4, ih5⟩ :=
          ih (a + 1) (by omega) (by omega) (by omega)
        simp only [Nat.add_sub_cancel] at ih1 ih2 ih3 ih4 ih5 hstep
        rw [hstep]
        dsimp only
        refine ⟨by omega, by omega, ?_, ih4, fun hf => by
          have := ih5 hf
          omega⟩
        simp only [Nat.add_sub_cancel]
        have hnm :
            (retryLoop succ r (a + 1)
                (min (2 ^ a) REFRESH_RETRY_MAX_BACKOFF_SECONDS)).attempts
            = ((retryLoop succ r (a + 1)
                (min (2 ^ a) REFRESH_RETRY_MAX_BACKOFF_SECONDS)).attempts - 1)
              + 1 := by
          omega
        rw [hnm, List.range_succ_eq_map, List.map_cons, List.map_map]
        rw [ih3]
        refine congrArg₂ _ ?_ ?_
        · simp
        · apply List.map_congr_left
          intro k _
          simp only [Function.comp_apply, Nat.succ_eq_add_one]
          have hexp : a - 1 + (k + 1) = a + k := by omega
          rw [hexp]
      · have ha5 : a = REFRESH_RETRY_MAX_ATTEMPTS := by omega
        have hr0 : r = 0 := by
          simp [REFRESH_RETRY_MAX_ATTEMPTS] at ha5 hsum
          omega
        subst hr0
        rw [retryLoop, if_neg (by simp [hsucc]), if_neg hlast]
        exact ⟨Nat.le_refl 1, Nat.le_refl 1, by simp, rfl, fun _ => rfl⟩

theorem compare_digest_eq_true_iff (a b : String) :
    compare_digest a b = true ↔ a = b := by
  unfold compare_digest
  by_cases hlen : (a.data.map Char.toNat).length = (b.data.map Char.toNat).length
  · simp only [hlen, ne_eq, not_true_eq_false, if_false, if_neg]
    rw [beq_iff_eq, foldl_or_xor_eq_zero, zip_pointwise_eq hlen]
    have hinj : a.data.map Char.toNat = b.data.map Char.toNat ↔ a.data = b.data :=
      ⟨fun h => List.map_injective_iff.mpr charToNat_injective h, fun h => by rw [h]⟩
    rw [hinj]
    constructor
    · rintro ⟨-, h⟩
      cases a; cases b; simp_all
    · rintro rfl
      exact ⟨rfl, rfl⟩
  · simp only [ne_eq, hlen, not_false_eq_true, if_true]
    constructor
    · intro h; simp at h
    · rintro rfl
      exact absurd rfl hlen

/-! ## Claim theorems -/

/-- C1: For every call to `OAuthManager.generate_pkce_pair` (with the 32
random bytes treated as input), the returned `code_verifier` is a
43-character base64url string without padding, within RFC 7636's
required 43-128 character length, and the returned `code_challenge`
equals the unpadded base64url encoding of the SHA-256 hash of the
verifier's UTF-8 bytes (the S256 challenge method). -/
theorem C1_generate_pkce_pair_spec (bs : List Nat) (hlen : bs.length = 32)
    (hb : ∀ b ∈ bs, b < 256) :
    (generate_pkce_pair bs).1.length = 43 ∧
    (43 ≤ (generate_pkce_pair bs).1.length ∧
     (generate_pkce_pair bs).1.length ≤ 128) ∧
    (∀ c ∈ (generate_pkce_pair bs).1.data, c ∈ B64URL_ALPHABET) ∧
    '=' ∉ (generate_pkce_pair bs).1.data ∧
    (generate_pkce_pair bs).2 =
      b64urlNoPad (sha256 (utf8Bytes (generate_pkce_pair bs).1)) := by
  have hdata : (generate_pkce_pair bs).1.data = b64Chunks bs := rfl
  have hl : (generate_pkce_pair bs).1.length = 43 := by
    have h1 : (generate_pkce_pair bs).1.length = (b64Chunks bs).length := rfl
    rw [h1, b64Chunks_length, hlen]
  refine ⟨hl, ⟨by omega, by omega⟩, ?_, ?_, rfl⟩
  · intro c hc
    exact b64Chunks_mem hb c (hdata ▸ hc)
  · intro hmem
    exact pad_not_mem_alphabet (b64Chunks_mem hb '=' (hdata ▸ hmem))

/-- Witness for C1 at the concrete input of 32 zero bytes. -/
theorem C1_generate_pkce_pair_spec_witness :
    (List.replicate 32 0).length = 32 ∧
    (∀ b ∈ List.replicate 32 0, b < 256) ∧
    (generate_pkce_pair (List.replicate 32 0)).1.length = 43 :=
  ⟨by decide, by decide,
   (C1_generate_pkce_pair_spec (List.replicate 32 0) (by decide) (by decide)).1⟩

/-- C5: For every pair of strings, `OAuthManager.validate_state` returns
True if and only if the two strings are equal, the comparison being the
accumulated-OR-of-XORs computation of `hmac.compare_digest`. -/
theorem C5_validate_state_iff_eq (received_state expected_state : String) :
    validate_state received_state expected_state = true ↔
      received_state = expected_state :=
  compare_digest_eq_true_iff received_state expected_state

/-- Witness for C5 at concrete equal states. -/
theorem C5_validate_state_iff_eq_witness :
    validate_state "state123" "state123" = true :=
  (C5_validate_state_iff_eq "state123" "state123").mpr rfl

/-- C6: `TokenManager.is_token_valid` returns True iff token data exists
with a non-zero `expires_at` satisfying
`expires_at - now > TOKEN_REFRESH_BUFFER_SECONDS`, and
`TokenManager.async_get_access_token` attempts a token refresh exactly
when this validity check fails. -/
theorem C6_token_validity_and_proactive_refresh (s : TMState) (now : Int)
    (network : Except RefreshErr TokenResponse) :
    ((is_token_valid s now).1 = true ↔
      ∃ td, (loadTokenData s).cache = some td ∧ td.expires_at ≠ 0 ∧
        td.expires_at - now > TOKEN_REFRESH_BUFFER_SECONDS) ∧
    (async_get_access_token s now network).attempted_refresh
      = !(is_token_valid s now).1 := by
  constructor
  · unfold is_token_valid
    cases h : (loadTokenData s).cache with
    | none => simp [h]
    | some td =>
      by_cases h0 : td.expires_at = 0
      · simp [h, h0]
      · by_cases hgt : td.expires_at - now > TOKEN_REFRESH_BUFFER_SECONDS
        · simp [h, h0, hgt]
        · simp [h, h0, hgt]
  · unfold async_get_access_token
    by_cases hv : (is_token_valid s now).1
    · simp [hv, finishGetToken_attempted]
    · simp only [hv, if_false, Bool.not_false]
      cases hr : async_refresh_token (is_token_valid s now).2 now network with
      | mk res st =>
        cases res with
        | error e => simp
        | ok tr => simp [finishGetToken_attempted]

/-- Witness for C6 at a concrete state whose token is far from expiry. -/
theorem C6_token_validity_and_proactive_refresh_witness :
    (is_token_valid { cache := some { expires_at := 1000 } } 0).1 = true :=
  (C6_token_validity_and_proactive_refresh
      { cache := some { expires_at := 1000 } } 0
      (.error (.alexaRefreshFailedError "unused"))).1.mpr
    ⟨{ expires_at := 1000 }, rfl, by decide, by decide⟩

/-- C7: Every token saved via `TokenManager.async_save_token` is
persisted through the host's encrypted storage primitive: the store
afterwards holds exactly the encryption of the token dictionary built
from the response (access token, refresh token, computed expiry). -/
theorem C7_save_token_encrypted_at_rest (s : TMState) (now : Int)
    (tr : TokenResponse) :
    (async_save_token s now tr).store
        = some (hostEncrypt (tokenDataOfResponse tr now)) ∧
    (tokenDataOfResponse tr now).access_token = some tr.access_token ∧
    (tokenDataOfResponse tr now).refresh_token = some tr.refresh_token ∧
    (tokenDataOfResponse tr now).expires_at = now + tr.expires_in ∧
    (async_save_token s now tr).cache = some (tokenDataOfResponse tr now) :=
  ⟨rfl, rfl, rfl, rfl, rfl⟩

/-- Witness for C7 at a concrete response saved into an empty store. -/
theorem C7_save_token_encrypted_at_rest_witness :
    (async_save_token {} 100
        { access_token := "Atza|x", refresh_token := "Atzr|y",
          token_type := "Bearer", expires_in := 3600, scope := "" }).store
      = some (hostEncrypt (tokenDataOfResponse
          { access_token := "Atza|x", refresh_token := "Atzr|y",
            token_type := "Bearer", expires_in := 3600, scope := "" } 100)) :=
  (C7_save_token_encrypted_at_rest {} 100
    { access_token := "Atza|x", refresh_token := "Atzr|y",
      token_type := "Bearer", expires_in := 3600, scope := "" }).1

/-- C9: `TokenResponse.from_dict` raises `ValueError` iff a required
field is missing, `token_type` is not `Bearer`, or `expires_in` is not a
positive integer; otherwise it returns a `TokenResponse` whose fields
equal the dictionary values, with `scope` defaulting to `""`. -/
theorem C9_from_dict_spec (d : TokenDict) :
    ((∃ msg, TokenResponse.from_dict d = .error msg) ↔
      (d.access_token = none ∨ d.refresh_token = none ∨
       d.token_type = none ∨ d.expires_in = none ∨
       d.token_type ≠ some "Bearer" ∨
       ∀ n : Int, d.expires_in = some (.intVal n) → n ≤ 0)) ∧
    (∀ tr, TokenResponse.from_dict d = .ok tr →
      d.access_token = some tr.access_token ∧
      d.refresh_token = some tr.refresh_token ∧
      d.token_type = some tr.token_type ∧
      d.expires_in = some (.intVal tr.expires_in) ∧
      0 < tr.expires_in ∧
      tr.scope = d.scope.getD "") := by
  rcases d with ⟨a, r, t, e, sc, er, ed⟩
  rcases a with _ | a <;> rcases r with _ | r <;> rcases t with _ | t <;>
    rcases e with _ | e <;> simp [TokenResponse.from_dict]
  by_cases ht : t = "Bearer"
  · subst ht
    rcases e with n | _
    · by_cases hn : n ≤ 0
      · simp [hn]
      · simp [hn]
        omega
    · simp
  · simp [ht]

/-- Witness for C9 at a fully valid concrete token dictionary. -/
theorem C9_from_dict_spec_witness :
    TokenResponse.from_dict
        { access_token := some "Atza|x", refresh_token := some "Atzr|y",
          token_type := some "Bearer", expires_in := some (.intVal 3600) }
      = .ok { access_token := "Atza|x", refresh_token := "Atzr|y",
              token_type := "Bearer", expires_in := 3600, scope := "" } ∧
    ({ access_token := some "Atza|x", refresh_token := some "Atzr|y",
       token_type := some "Bearer", expires_in := some (.intVal 3600)
       : TokenDict }).access_token = some "Atza|x" :=
  ⟨rfl,
   ((C9_from_dict_spec
      { access_token := some "Atza|x", refresh_token := some "Atzr|y",
        token_type := some "Bearer", expires_in := some (.intVal 3600) }).2
     { access_token := "Atza|x", refresh_token := "Atzr|y",
       token_type := "Bearer", expires_in := 3600, scope := "" } rfl).1⟩

/-- C8: `OAuthManager._handle_token_error` raises on every input —
`AlexaInvalidCodeError` for `invalid_grant` whose description mentions
an authorization code, `AlexaInvalidGrantError` for other
`invalid_grant`, `AlexaOAuthError` for `invalid_client` and everything
else — so for every non-200 token-endpoint response, `exchange_code`
and `refresh_access_token` never return normally and the `return` after
the handler call is unreachable. -/
theorem C8_handle_token_error_total (body : TokenDict) (status : Nat)
    (hs : status ≠ 200) :
    ((body.error.getD "unknown_error" = "invalid_grant" →
       (strContainsSub
           ((body.error_description.getD "No description provided").toLower)
           "authorization code" = true →
         ∃ m, handle_token_error body = .alexaInvalidCodeError m) ∧
       (strContainsSub
           ((body.error_description.getD "No description provided").toLower)
           "authorization code" = false →
         ∃ m, handle_token_error body = .alexaInvalidGrantError m)) ∧
     (body.error.getD "unknown_error" ≠ "invalid_grant" →
       ∃ m, handle_token_error body = .alexaOAuthError m)) ∧
    exchange_code_response status body = .error (handle_token_error body) ∧
    refresh_access_token_response status body
      = .error (handle_token_error body) ∧
    (∀ tr, exchange_code_response status body ≠ .ok tr) := by
  refine ⟨⟨?_, ?_⟩, ?_, ?_, ?_⟩
  · intro hig
    unfold handle_token_error
    rw [hig]
    constructor
    · intro hsub
      rw [if_pos rfl, if_pos hsub]
      exact ⟨_, rfl⟩
    · intro hsub
      rw [if_pos rfl, if_neg (by simp [hsub])]
      exact ⟨_, rfl⟩
  · intro hig
    unfold handle_token_error
    rw [if_neg hig]
    by_cases hic : body.error.getD "unknown_error" = "invalid_client"
    · rw [if_pos hic]
      exact ⟨_, rfl⟩
    · rw [if_neg hic]
      exact ⟨_, rfl⟩
  · unfold exchange_code_response token_endpoint_response
    rw [if_pos hs]
  · unfold refresh_access_token_response token_endpoint_response
    rw [if_pos hs]
  · intro tr h
    unfold exchange_code_response token_endpoint_response at h
    rw [if_pos hs] at h
    exact Except.noConfusion h

/-- Witness for C8 at a concrete 400 `invalid_grant` response. -/
theorem C8_handle_token_error_total_witness :
    (400 ≠ 200) ∧
    exchange_code_response 400 { error := some "invalid_grant" }
      = .error (handle_token_error { error := some "invalid_grant" }) :=
  ⟨by decide,
   (C8_handle_token_error_total { error := some "invalid_grant" } 400
     (by decide)).2.1⟩

/-- C10: `TokenManager.async_revoke_token` never raises on a failed
revocation request: with a stored refresh token it always clears the
in-memory cache and removes the persisted entry, whatever the network
outcome; with no token data or no refresh token it returns without
contacting the network, leaving storage unchanged. -/
theorem C10_revoke_token_best_effort (s : TMState)
    (network : Except String Nat) :
    (loadTokenData s).store = s.store ∧
    ((loadTokenData s).cache = none →
      async_revoke_token s network = ⟨false, false, loadTokenData s⟩) ∧
    (∀ td, (loadTokenData s).cache = some td →
      (td.refresh_token = none ∨ td.refresh_token = some "") →
      async_revoke_token s network = ⟨false, false, loadTokenData s⟩) ∧
    (∀ td rt, (loadTokenData s).cache = some td →
      td.refresh_token = some rt → rt ≠ "" →
      (async_revoke_token s network).network_contacted = true ∧
      (async_revoke_token s network).state.cache = none ∧
      (async_revoke_token s network).state.store = none) := by
  refine ⟨?_, ?_, ?_, ?_⟩
  · unfold loadTokenData
    cases s.cache <;> rfl
  · intro h
    unfold async_revoke_token
    simp [h]
  · rintro td h (hrt | hrt) <;> unfold async_revoke_token <;> simp [h, hrt]
  · intro td rt h hrt hne
    unfold async_revoke_token
    simp [h, hrt, hne]

/-- Witness for C10: a state holding a refresh token, with the network
call raising. -/
theorem C10_revoke_token_best_effort_witness :
    (async_revoke_token
        { cache := some { refresh_token := some "Atzr|y" } }
        (.error "boom")).network_contacted = true ∧
    (async_revoke_token
        { cache := some { refresh_token := some "Atzr|y" } }
        (.error "boom")).state.store = none :=
  ⟨((C10_revoke_token_best_effort
      { cache := some { refresh_token := some "Atzr|y" } }
      (.error "boom")).2.2.2 _ "Atzr|y" rfl rfl (by decide)).1,
   ((C10_revoke_token_best_effort
      { cache := some { refresh_token := some "Atzr|y" } }
      (.error "boom")).2.2.2 _ "Atzr|y" rfl rfl (by decide)).2.2⟩

/-- C4: `AdvancedReauthHandler.async_handle_reauth` covers exactly five
reauthorization failure scenarios — each `ReauthReason` dispatches to
its corresponding handler — and raises `AlexaReauthMaxRetriesError`
whenever `retry_count` reaches `REAUTH_MAX_RETRY_ATTEMPTS`. -/
theorem C4_async_handle_reauth_dispatch (reason : ReauthReason)
    (retry_count : Nat) (lock_locked : Bool) :
    (retry_count ≥ REAUTH_MAX_RETRY_ATTEMPTS →
      async_handle_reauth reason retry_count lock_locked
        = .raisedMaxRetriesError) ∧
    (retry_count < REAUTH_MAX_RETRY_ATTEMPTS → lock_locked = false →
      async_handle_reauth reason retry_count lock_locked
        = reauthDispatch reason) ∧
    reauthDispatch .refresh_token_expired = .toExpiredRefreshToken ∧
    reauthDispatch .app_revoked = .toRevokedApp ∧
    reauthDispatch .client_secret_rotated = .toClientSecretRotation ∧
    reauthDispatch .regional_change = .toRegionalChange ∧
    reauthDispatch .scope_changed = .toScopeChangedReauthFlow ∧
    (∀ r : ReauthReason,
      r ∈ [ReauthReason.refresh_token_expired, .app_revoked,
           .client_secret_rotated, .regional_change, .scope_changed]) ∧
    [ReauthReason.refresh_token_expired, .app_revoked,
     .client_secret_rotated, .regional_change, .scope_changed].Nodup := by
  refine ⟨?_, ?_, rfl, rfl, rfl, rfl, rfl, ?_, by decide⟩
  · intro h
    unfold async_handle_reauth
    rw [if_pos h]
  · intro h hl
    unfold async_handle_reauth
    rw [if_neg (by omega), hl, if_neg (by simp)]
  · intro r
    cases r <;> simp

/-- Witness for C4 at the retry cap and at a fresh dispatch. -/
theorem C4_async_handle_reauth_dispatch_witness :
    REAUTH_MAX_RETRY_ATTEMPTS ≥ REAUTH_MAX_RETRY_ATTEMPTS ∧
    async_handle_reauth .app_revoked REAUTH_MAX_RETRY_ATTEMPTS false
      = .raisedMaxRetriesError ∧
    async_handle_reauth .app_revoked 0 false = .toRevokedApp :=
  ⟨Nat.le_refl _,
   (C4_async_handle_reauth_dispatch .app_revoked REAUTH_MAX_RETRY_ATTEMPTS
     false).1 (Nat.le_refl _),
   (C4_async_handle_reauth_dispatch .app_revoked 0 false).2.1
     (by decide) rfl⟩

/-- C3: For every entry whose token needs refresh,
`_refresh_token_for_entry` attempts refresh at most
`REFRESH_RETRY_MAX_ATTEMPTS` (5) times; the delay before retry `k+1` is
`min(2^(k-1) * REFRESH_RETRY_INITIAL_BACKOFF_SECONDS,
REFRESH_RETRY_MAX_BACKOFF_SECONDS)`; no sleep occurs after the final
attempt; after the final failed attempt the user is notified via
`_notify_token_expiry`. -/
theorem C3_refresh_backoff (succ : Nat → Bool) :
    1 ≤ (refresh_retry_trace succ).attempts ∧
    (refresh_retry_trace succ).attempts ≤ REFRESH_RETRY_MAX_ATTEMPTS ∧
    (refresh_retry_trace succ).delays =
      (List.range ((refresh_retry_trace succ).attempts - 1)).map
        (fun k => min (2 ^ k * REFRESH_RETRY_INITIAL_BACKOFF_SECONDS)
          REFRESH_RETRY_MAX_BACKOFF_SECONDS) ∧
    (refresh_retry_trace succ).delays.length
      = (refresh_retry_trace succ).attempts - 1 ∧
    (refresh_retry_trace succ).notified
      = !(refresh_retry_trace succ).succeeded ∧
    ((refresh_retry_trace succ).succeeded = false →
      (refresh_retry_trace succ).attempts = REFRESH_RETRY_MAX_ATTEMPTS) := by
  have he : refresh_retry_trace succ
      = retryLoop succ REFRESH_RETRY_MAX_ATTEMPTS 1
          (min (2 ^ (1 - 1)) REFRESH_RETRY_MAX_BACKOFF_SECONDS) := rfl
  obtain ⟨h1, h2, h3, h4, h5⟩ :=
    retryLoop_spec succ REFRESH_RETRY_MAX_ATTEMPTS 1 (Nat.le_refl 1)
      (by simp [REFRESH_RETRY_MAX_ATTEMPTS]) rfl
  rw [he]
  refine ⟨h1, h2, ?_, ?_, h4, h5⟩
  · rw [h3]
    apply List.map_congr_left
    intro k _
    simp [REFRESH_RETRY_INITIAL_BACKOFF_SECONDS]
  · rw [h3, List.length_map, List.length_range]

/-- Witness for C3 with every refresh attempt failing: 5 attempts,
delays 1s, 2s, 4s, 8s, user notified. -/
theorem C3_refresh_backoff_witness :
    (refresh_retry_trace (fun _ => false)).succeeded = false ∧
    (refresh_retry_trace (fun _ => false)).attempts
      = REFRESH_RETRY_MAX_ATTEMPTS ∧
    (refresh_retry_trace (fun _ => false)).delays = [1, 2, 4, 8] ∧
    (refresh_retry_trace (fun _ => false)).notified = true :=
  ⟨by decide, (C3_refresh_backoff (fun _ => false)).2.2.2.2.2 (by decide),
   by decide, by decide⟩

/-- C2 (amended): single-flight de-duplication holds — the two callers
are never simultaneously inside the single-flight section, a caller that
hits the in-progress check performs no refresh, and
`_should_refresh_token` returns False while a refresh is recorded in
progress — but the concurrent caller returns immediately rather than
awaiting the existing operation's result. -/
theorem C2_single_flight_dedup (sched : List Bool) (valid raised : Bool) :
    (inFlight (sfRun sfInit sched).t1 && inFlight (sfRun sfInit sched).t2)
      = false ∧
    ((sfRun sfInit sched).t1.early_return = true →
      (sfRun sfInit sched).t1.refreshes = 0) ∧
    ((sfRun sfInit sched).t2.early_return = true →
      (sfRun sfInit sched).t2.refreshes = 0) ∧
    should_refresh_token true valid raised = false := by
  obtain ⟨hmx, hre, he1, he2, hc1, hc2⟩ := sfInv_run sched sfInit sfInv_init
  exact ⟨hmx, fun h => (he1 h).2, fun h => (he2 h).2, rfl⟩

/-- Witness for C2 at the schedule where the first caller enters and
the second then hits the single-flight check. -/
theorem C2_single_flight_dedup_witness :
    (sfRun sfInit [false, true]).t2.early_return = true ∧
    (sfRun sfInit [false, true]).t2.refreshes = 0 :=
  ⟨by decide,
   (C2_single_flight_dedup [false, true] true true).2.2.1 (by decide)⟩

/-- C2 counterexample: the claim's "a concurrent caller for the same key
awaits the existing operation's result" is false for this code — after
the schedule [first, second], the second caller has finished (returned
at the single-flight check) while the first caller's refresh operation
is still in flight. -/
theorem C2_awaits_existing_result_counterexample :
    ¬ (∀ sched : List Bool,
        (sfRun sfInit sched).t2.early_return = true →
        (sfRun sfInit sched).t2.pc = TaskPC.finished →
        (sfRun sfInit sched).t1.pc = TaskPC.finished) := by
  intro h
  exact absurd (h [false, true] (by decide) (by decide)) (by decide)

end AlexaOAuth

